import Mathlib

/-! The class `touchgfx::ClickEvent`.

A shallow embedding of `touchgfx/events/ClickEvent.hpp` (TouchGFX 4.15.0) and the
properties of its constructor, accessors and mutators.

Conventions of the embedding:

* an object of class `ClickEvent` is a value of the structure `ClickEvent`, whose
  fields are the four private data members, in declaration order;
* a member function that returns a value is a function from the object to the pair
  of the returned value and the object after the call;
* a `void` member function is a function from the object (and the arguments) to
  the object after the call;
* `int16_t` is the type of the integers from -32768 to 32767;
* `Event::EventType` and its enumerator `Event::EVENT_CLICK` are declared in
  `touchgfx/Event.hpp`; `getEventType` takes them as parameters.
-/

namespace touchgfx

/-! ## Data model -/

/-- The signed 16-bit integer type: the integers from -32768 to 32767. -/
abbrev int16_t : Type := { n : Int // -32768 ≤ n ∧ n ≤ 32767 }

/-- The nested enumeration `ClickEvent::ClickEventType`, enumerators in declaration order. -/
inductive ClickEvent.ClickEventType
  | PRESSED
  | RELEASED
  | CANCEL
deriving DecidableEq

/-- The integer value of an enumerator: no enumerator has an initializer, so they
are numbered from zero in declaration order. -/
def ClickEvent.ClickEventType.value : ClickEvent.ClickEventType → Nat
  | .PRESSED => 0
  | .RELEASED => 1
  | .CANCEL => 2

/-- The data members of class `ClickEvent`: `_type`, `_x`, `_y`, `_force`. -/
structure ClickEvent where
  _type : ClickEvent.ClickEventType
  _x : int16_t
  _y : int16_t
  _force : int16_t
deriving DecidableEq

/-! ## Member functions -/

/-- The constructor `ClickEvent(ClickEventType type, int16_t x, int16_t y, int16_t force = 0)`:
the member initializer list copies each argument into its data member and the body
is empty. The last argument may be omitted and is then 0. -/
def ClickEvent.construct (type : ClickEvent.ClickEventType) (x : int16_t) (y : int16_t)
    (force : optParam int16_t ⟨0, by decide⟩) : ClickEvent :=
  { _type := type, _x := x, _y := y, _force := force }

/-- The member `int16_t getX() const`: `return _x;`. -/
def ClickEvent.getX (self : ClickEvent) : int16_t × ClickEvent :=
  (self._x, self)

/-- The member `int16_t getY() const`: `return _y;`. -/
def ClickEvent.getY (self : ClickEvent) : int16_t × ClickEvent :=
  (self._y, self)

/-- The member `void setX(int16_t x)`: `_x = x;`. -/
def ClickEvent.setX (self : ClickEvent) (x : int16_t) : ClickEvent :=
  { self with _x := x }

/-- The member `void setY(int16_t y)`: `_y = y;`. -/
def ClickEvent.setY (self : ClickEvent) (y : int16_t) : ClickEvent :=
  { self with _y := y }

/-- The member `void setType(ClickEventType type)`: `_type = type;`. -/
def ClickEvent.setType (self : ClickEvent) (type : ClickEvent.ClickEventType) : ClickEvent :=
  { self with _type := type }

/-- The member `ClickEventType getType() const`: `return _type;`. -/
def ClickEvent.getType (self : ClickEvent) : ClickEvent.ClickEventType × ClickEvent :=
  (self._type, self)

/-- The member `int16_t getForce() const`: `return _force;`. -/
def ClickEvent.getForce (self : ClickEvent) : int16_t × ClickEvent :=
  (self._force, self)

/-- The member `virtual Event::EventType getEventType()`: `return Event::EVENT_CLICK;`.
The type `Event::EventType` and the enumerator `Event::EVENT_CLICK` come from
`touchgfx/Event.hpp` and are parameters here. -/
def ClickEvent.getEventType {EventType : Type} (EVENT_CLICK : EventType) (self : ClickEvent) :
    EventType × ClickEvent :=
  (EVENT_CLICK, self)

/-! ## Call sequences -/

/-- One call of a mutator of `ClickEvent`, with its argument. -/
inductive Call
  | setX (x : int16_t)
  | setY (y : int16_t)
  | setType (type : ClickEvent.ClickEventType)
deriving DecidableEq

/-- The object after one mutator call. -/
def Call.apply (c : Call) (e : ClickEvent) : ClickEvent :=
  match c with
  | .setX x => e.setX x
  | .setY y => e.setY y
  | .setType type => e.setType type

/-- The object after a finite sequence of mutator calls, made from left to right. -/
def applyCalls (cs : List Call) (e : ClickEvent) : ClickEvent :=
  cs.foldl (fun acc c => c.apply acc) e

/-- The phase arguments of the `setType` calls of a call sequence, in call order. -/
def setTypeArguments : List Call → List ClickEvent.ClickEventType
  | [] => []
  | .setType type :: cs => type :: setTypeArguments cs
  | .setX _ :: cs => setTypeArguments cs
  | .setY _ :: cs => setTypeArguments cs

/-- Everything the public accessors report about an object: the results of
`getType`, `getX`, `getY`, `getForce` and `getEventType`. -/
def ClickEvent.observe {EventType : Type} (EVENT_CLICK : EventType) (e : ClickEvent) :
    ClickEvent.ClickEventType × int16_t × int16_t × int16_t × EventType :=
  (e.getType.1, e.getX.1, e.getY.1, e.getForce.1, (e.getEventType EVENT_CLICK).1)

/-! ## Shared lemmas -/

theorem applyCalls_nil (e : ClickEvent) : applyCalls [] e = e := rfl

theorem applyCalls_cons (c : Call) (cs : List Call) (e : ClickEvent) :
    applyCalls (c :: cs) e = applyCalls cs (c.apply e) := rfl

/-- No mutator call writes the data member `_force`. -/
theorem Call.apply_force (c : Call) (e : ClickEvent) : (c.apply e)._force = e._force := by
  cases c <;> rfl

/-- No sequence of mutator calls writes the data member `_force`. -/
theorem applyCalls_force (cs : List Call) (e : ClickEvent) :
    (applyCalls cs e)._force = e._force := by
  induction cs generalizing e with
  | nil => rfl
  | cons c cs ih => rw [applyCalls_cons, ih, Call.apply_force]

/-- The data member `_type` after a call sequence is the one the object had before
it or the argument of one of the sequence's `setType` calls. -/
theorem applyCalls_type_mem (cs : List Call) (e : ClickEvent) :
    (applyCalls cs e)._type ∈ e._type :: setTypeArguments cs := by
  induction cs generalizing e with
  | nil => simp [applyCalls_nil]
  | cons c cs ih =>
    rw [applyCalls_cons]
    have h := ih (c.apply e)
    cases c with
    | setX v =>
      simpa [setTypeArguments, Call.apply, ClickEvent.setX] using h
    | setY v =>
      simpa [setTypeArguments, Call.apply, ClickEvent.setY] using h
    | setType t =>
      have h2 : (applyCalls cs (Call.apply (Call.setType t) e))._type
          ∈ t :: setTypeArguments cs := by
        simpa [Call.apply, ClickEvent.setType] using h
      simpa [setTypeArguments] using Or.inr (List.mem_cons.mp h2)

/-! ## Construction and accessors -/

/-- C1: for every phase `p` and all signed 16-bit `x`, `y`, `force`, the event
constructed from `(p, x, y, force)` reports `getType() = p`, `getX() = x`,
`getY() = y` and `getForce() = force`. -/
theorem construct_round_trip (p : ClickEvent.ClickEventType) (x y force : int16_t) :
    (ClickEvent.construct p x y force).getType.1 = p ∧
    (ClickEvent.construct p x y force).getX.1 = x ∧
    (ClickEvent.construct p x y force).getY.1 = y ∧
    (ClickEvent.construct p x y force).getForce.1 = force :=
  ⟨rfl, rfl, rfl, rfl⟩

/-- C2: for every event obtained by construction from any phase, coordinates and
force followed by any finite sequence of `setX`, `setY` and `setType` calls,
`getEventType()` returns `Event::EVENT_CLICK`. -/
theorem getEventType_after_calls {EventType : Type} (EVENT_CLICK : EventType)
    (p : ClickEvent.ClickEventType) (x y force : int16_t) (cs : List Call) :
    ((applyCalls cs (ClickEvent.construct p x y force)).getEventType EVENT_CLICK).1
      = EVENT_CLICK :=
  rfl

/-- C3: for every event `e`, after `setX(v)` the accessor `getX()` returns `v`,
after `setY(v)` the accessor `getY()` returns `v`, and after `setType(p)` the
accessor `getType()` returns `p`. -/
theorem set_then_get (e : ClickEvent) (v : int16_t) (p : ClickEvent.ClickEventType) :
    (e.setX v).getX.1 = v ∧ (e.setY v).getY.1 = v ∧ (e.setType p).getType.1 = p :=
  ⟨rfl, rfl, rfl⟩

/-- C4: for every event `e` and every argument, `setX` leaves the results of `getY`,
`getType` and `getForce` as they were, `setY` leaves the results of `getX`, `getType`
and `getForce` as they were, and `setType` leaves the results of `getX`, `getY` and
`getForce` as they were. -/
theorem setters_frame (e : ClickEvent) (v : int16_t) (p : ClickEvent.ClickEventType) :
    ((e.setX v).getY.1 = e.getY.1 ∧ (e.setX v).getType.1 = e.getType.1 ∧
      (e.setX v).getForce.1 = e.getForce.1) ∧
    ((e.setY v).getX.1 = e.getX.1 ∧ (e.setY v).getType.1 = e.getType.1 ∧
      (e.setY v).getForce.1 = e.getForce.1) ∧
    ((e.setType p).getX.1 = e.getX.1 ∧ (e.setType p).getY.1 = e.getY.1 ∧
      (e.setType p).getForce.1 = e.getForce.1) :=
  ⟨⟨rfl, rfl, rfl⟩, ⟨rfl, rfl, rfl⟩, ⟨rfl, rfl, rfl⟩⟩

/-- C5: for every phase `p` and all `x`, `y`, the event constructed from `(p, x, y)`
with the force argument omitted reports `getForce() = 0`, and it is the same event,
with the same result from every accessor, as the one constructed from `(p, x, y, 0)`. -/
theorem construct_default_force {EventType : Type} (EVENT_CLICK : EventType)
    (p : ClickEvent.ClickEventType) (x y : int16_t) :
    (ClickEvent.construct p x y).getForce.1.val = 0 ∧
    ClickEvent.construct p x y = ClickEvent.construct p x y ⟨0, by decide⟩ ∧
    (ClickEvent.construct p x y).observe EVENT_CLICK
      = (ClickEvent.construct p x y ⟨0, by decide⟩).observe EVENT_CLICK :=
  ⟨rfl, rfl, rfl⟩

/-- C6: for every event constructed with force `f` and every finite sequence of
`setX`, `setY` and `setType` calls with any arguments, `getForce()` still returns `f`
after the sequence. -/
theorem force_read_only (p : ClickEvent.ClickEventType) (x y f : int16_t) (cs : List Call) :
    (applyCalls cs (ClickEvent.construct p x y f)).getForce.1 = f := by
  show (applyCalls cs (ClickEvent.construct p x y f))._force = f
  rw [applyCalls_force]
  rfl

/-- C7: for all integers `x`, `y`, `force`, `v` in the signed 16-bit range (negative
values and the bounds -32768 and 32767 included), the event constructed from them
reports exactly the integers `x`, `y`, `force` through `getX`, `getY`, `getForce`,
and after `setX(v)` or `setY(v)` on any event `getX` or `getY` reports exactly the
integer `v`: nothing is clamped or rejected. -/
theorem no_clamping (p : ClickEvent.ClickEventType) (x y force v : Int)
    (hx : -32768 ≤ x ∧ x ≤ 32767) (hy : -32768 ≤ y ∧ y ≤ 32767)
    (hf : -32768 ≤ force ∧ force ≤ 32767) (hv : -32768 ≤ v ∧ v ≤ 32767)
    (e : ClickEvent) :
    (ClickEvent.construct p ⟨x, hx⟩ ⟨y, hy⟩ ⟨force, hf⟩).getType.1 = p ∧
    (ClickEvent.construct p ⟨x, hx⟩ ⟨y, hy⟩ ⟨force, hf⟩).getX.1.val = x ∧
    (ClickEvent.construct p ⟨x, hx⟩ ⟨y, hy⟩ ⟨force, hf⟩).getY.1.val = y ∧
    (ClickEvent.construct p ⟨x, hx⟩ ⟨y, hy⟩ ⟨force, hf⟩).getForce.1.val = force ∧
    (e.setX ⟨v, hv⟩).getX.1.val = v ∧
    (e.setY ⟨v, hv⟩).getY.1.val = v :=
  ⟨rfl, rfl, rfl, rfl, rfl, rfl⟩

/-- The event `ClickEvent(CANCEL, -5, -5, 3)` reads back type CANCEL, x = -5, y = -5 and
force = 3, and `setX(-32768)`, `setY(-32768)` on it read back -32768; the event
`ClickEvent(PRESSED, -32768, 32767, 32767)` reads back its bounds, and `setX(32767)`,
`setY(32767)` on it read back 32767. -/
theorem no_clamping_witness :
    ((ClickEvent.construct .CANCEL ⟨-5, by decide⟩ ⟨-5, by decide⟩ ⟨3, by decide⟩).getType.1
        = ClickEvent.ClickEventType.CANCEL ∧
      (ClickEvent.construct .CANCEL ⟨-5, by decide⟩ ⟨-5, by decide⟩ ⟨3, by decide⟩).getX.1.val = -5 ∧
      (ClickEvent.construct .CANCEL ⟨-5, by decide⟩ ⟨-5, by decide⟩ ⟨3, by decide⟩).getY.1.val = -5 ∧
      (ClickEvent.construct .CANCEL ⟨-5, by decide⟩ ⟨-5, by decide⟩ ⟨3, by decide⟩).getForce.1.val = 3 ∧
      ((ClickEvent.construct .CANCEL ⟨-5, by decide⟩ ⟨-5, by decide⟩ ⟨3, by decide⟩).setX
        ⟨-32768, by decide⟩).getX.1.val = -32768 ∧
      ((ClickEvent.construct .CANCEL ⟨-5, by decide⟩ ⟨-5, by decide⟩ ⟨3, by decide⟩).setY
        ⟨-32768, by decide⟩).getY.1.val = -32768) ∧
    ((ClickEvent.construct .PRESSED ⟨-32768, by decide⟩ ⟨32767, by decide⟩
        ⟨32767, by decide⟩).getType.1 = ClickEvent.ClickEventType.PRESSED ∧
      (ClickEvent.construct .PRESSED ⟨-32768, by decide⟩ ⟨32767, by decide⟩
        ⟨32767, by decide⟩).getX.1.val = -32768 ∧
      (ClickEvent.construct .PRESSED ⟨-32768, by decide⟩ ⟨32767, by decide⟩
        ⟨32767, by decide⟩).getY.1.val = 32767 ∧
      (ClickEvent.construct .PRESSED ⟨-32768, by decide⟩ ⟨32767, by decide⟩
        ⟨32767, by decide⟩).getForce.1.val = 32767 ∧
      ((ClickEvent.construct .PRESSED ⟨-32768, by decide⟩ ⟨32767, by decide⟩
        ⟨32767, by decide⟩).setX ⟨32767, by decide⟩).getX.1.val = 32767 ∧
      ((ClickEvent.construct .PRESSED ⟨-32768, by decide⟩ ⟨32767, by decide⟩
        ⟨32767, by decide⟩).setY ⟨32767, by decide⟩).getY.1.val = 32767) :=
  ⟨no_clamping .CANCEL (-5) (-5) 3 (-32768) (by decide) (by decide) (by decide) (by decide)
      (ClickEvent.construct .CANCEL ⟨-5, by decide⟩ ⟨-5, by decide⟩ ⟨3, by decide⟩),
    no_clamping .PRESSED (-32768) 32767 32767 32767 (by decide) (by decide) (by decide)
      (by decide)
      (ClickEvent.construct .PRESSED ⟨-32768, by decide⟩ ⟨32767, by decide⟩ ⟨32767, by decide⟩)⟩

/-- C8: the event constructed from (PRESSED, 10, 20, 0) has kind CLICK, type PRESSED,
x = 10, y = 20 and force = 0; after `setType(RELEASED)` it has type RELEASED with
x = 10 and y = 20; after the further calls `setX(15)` and `setY(25)` it has x = 15,
y = 25, type RELEASED, force 0 and kind CLICK. -/
theorem sequence_scenario {EventType : Type} (EVENT_CLICK : EventType) :
    ((ClickEvent.construct .PRESSED ⟨10, by decide⟩ ⟨20, by decide⟩ ⟨0, by decide⟩).getEventType
        EVENT_CLICK).1 = EVENT_CLICK ∧
    (ClickEvent.construct .PRESSED ⟨10, by decide⟩ ⟨20, by decide⟩ ⟨0, by decide⟩).getType.1
      = ClickEvent.ClickEventType.PRESSED ∧
    (ClickEvent.construct .PRESSED ⟨10, by decide⟩ ⟨20, by decide⟩ ⟨0, by decide⟩).getX.1.val = 10 ∧
    (ClickEvent.construct .PRESSED ⟨10, by decide⟩ ⟨20, by decide⟩ ⟨0, by decide⟩).getY.1.val = 20 ∧
    (ClickEvent.construct .PRESSED ⟨10, by decide⟩ ⟨20, by decide⟩ ⟨0, by decide⟩).getForce.1.val
      = 0 ∧
    ((ClickEvent.construct .PRESSED ⟨10, by decide⟩ ⟨20, by decide⟩ ⟨0, by decide⟩).setType
        .RELEASED).getType.1 = ClickEvent.ClickEventType.RELEASED ∧
    ((ClickEvent.construct .PRESSED ⟨10, by decide⟩ ⟨20, by decide⟩ ⟨0, by decide⟩).setType
        .RELEASED).getX.1.val = 10 ∧
    ((ClickEvent.construct .PRESSED ⟨10, by decide⟩ ⟨20, by decide⟩ ⟨0, by decide⟩).setType
        .RELEASED).getY.1.val = 20 ∧
    ((((ClickEvent.construct .PRESSED ⟨10, by decide⟩ ⟨20, by decide⟩ ⟨0, by decide⟩).setType
        .RELEASED).setX ⟨15, by decide⟩).setY ⟨25, by decide⟩).getX.1.val = 15 ∧
    ((((ClickEvent.construct .PRESSED ⟨10, by decide⟩ ⟨20, by decide⟩ ⟨0, by decide⟩).setType
        .RELEASED).setX ⟨15, by decide⟩).setY ⟨25, by decide⟩).getY.1.val = 25 ∧
    ((((ClickEvent.construct .PRESSED ⟨10, by decide⟩ ⟨20, by decide⟩ ⟨0, by decide⟩).setType
        .RELEASED).setX ⟨15, by decide⟩).setY ⟨25, by decide⟩).getType.1
      = ClickEvent.ClickEventType.RELEASED ∧
    ((((ClickEvent.construct .PRESSED ⟨10, by decide⟩ ⟨20, by decide⟩ ⟨0, by decide⟩).setType
        .RELEASED).setX ⟨15, by decide⟩).setY ⟨25, by decide⟩).getForce.1.val = 0 ∧
    (((((ClickEvent.construct .PRESSED ⟨10, by decide⟩ ⟨20, by decide⟩ ⟨0, by decide⟩).setType
        .RELEASED).setX ⟨15, by decide⟩).setY ⟨25, by decide⟩).getEventType EVENT_CLICK).1
      = EVENT_CLICK :=
  ⟨rfl, rfl, rfl, rfl, rfl, rfl, rfl, rfl, rfl, rfl, rfl, rfl, rfl⟩

/-- C9: two events constructed from the same `(phase, x, y, force)` give the same
result through every accessor (`getType`, `getX`, `getY`, `getForce`,
`getEventType`), and still do after the same sequence of `setX`, `setY`, `setType`
calls is applied to each; and two events on which `getType`, `getX`, `getY` and
`getForce` agree are equal. -/
theorem value_semantics {EventType : Type} (EVENT_CLICK : EventType)
    (p p' : ClickEvent.ClickEventType) (x x' y y' f f' : int16_t) (cs : List Call)
    (hp : p = p') (hx : x = x') (hy : y = y') (hf : f = f') :
    ((ClickEvent.construct p x y f).getType.1 = (ClickEvent.construct p' x' y' f').getType.1 ∧
      (ClickEvent.construct p x y f).getX.1 = (ClickEvent.construct p' x' y' f').getX.1 ∧
      (ClickEvent.construct p x y f).getY.1 = (ClickEvent.construct p' x' y' f').getY.1 ∧
      (ClickEvent.construct p x y f).getForce.1
        = (ClickEvent.construct p' x' y' f').getForce.1 ∧
      ((ClickEvent.construct p x y f).getEventType EVENT_CLICK).1
        = ((ClickEvent.construct p' x' y' f').getEventType EVENT_CLICK).1) ∧
    (applyCalls cs (ClickEvent.construct p x y f)).observe EVENT_CLICK
      = (applyCalls cs (ClickEvent.construct p' x' y' f')).observe EVENT_CLICK ∧
    (∀ a b : ClickEvent, a.getType.1 = b.getType.1 → a.getX.1 = b.getX.1 →
      a.getY.1 = b.getY.1 → a.getForce.1 = b.getForce.1 → a = b) := by
  subst hp hx hy hf
  refine ⟨⟨rfl, rfl, rfl, rfl, rfl⟩, rfl, ?_⟩
  intro a b ht hx hy hf
  cases a
  cases b
  simp only [ClickEvent.getType, ClickEvent.getX, ClickEvent.getY, ClickEvent.getForce] at ht hx hy hf
  subst ht hx hy hf
  rfl

/-- Two constructions from (CANCEL, -5, 7, 3), each followed by `setX(15)`,
`setType(RELEASED)`, `setY(-32768)`, with 0 standing for the click kind. -/
theorem value_semantics_witness :
    (ClickEvent.ClickEventType.CANCEL = ClickEvent.ClickEventType.CANCEL ∧
      (⟨-5, by decide⟩ : int16_t) = ⟨-5, by decide⟩ ∧
      (⟨7, by decide⟩ : int16_t) = ⟨7, by decide⟩ ∧
      (⟨3, by decide⟩ : int16_t) = ⟨3, by decide⟩) ∧
    (applyCalls [.setX ⟨15, by decide⟩, .setType .RELEASED, .setY ⟨-32768, by decide⟩]
        (ClickEvent.construct .CANCEL ⟨-5, by decide⟩ ⟨7, by decide⟩ ⟨3, by decide⟩)).observe
        (0 : Nat)
      = (applyCalls [.setX ⟨15, by decide⟩, .setType .RELEASED, .setY ⟨-32768, by decide⟩]
        (ClickEvent.construct .CANCEL ⟨-5, by decide⟩ ⟨7, by decide⟩ ⟨3, by decide⟩)).observe
        (0 : Nat) ∧
    (applyCalls [.setX ⟨15, by decide⟩, .setType .RELEASED, .setY ⟨-32768, by decide⟩]
        (ClickEvent.construct .CANCEL ⟨-5, by decide⟩ ⟨7, by decide⟩ ⟨3, by decide⟩)).observe
        (0 : Nat)
      = (.RELEASED, ⟨15, by decide⟩, ⟨-32768, by decide⟩, ⟨3, by decide⟩, 0) :=
  ⟨⟨rfl, rfl, rfl, rfl⟩,
    (value_semantics (0 : Nat) .CANCEL .CANCEL ⟨-5, by decide⟩ ⟨-5, by decide⟩ ⟨7, by decide⟩
      ⟨7, by decide⟩ ⟨3, by decide⟩ ⟨3, by decide⟩
      [.setX ⟨15, by decide⟩, .setType .RELEASED, .setY ⟨-32768, by decide⟩]
      rfl rfl rfl rfl).2.1,
    by decide⟩

/-- C10: for every event `e`, each of `getX`, `getY`, `getForce`, `getType` and
`getEventType` leaves `e` unchanged, so after any one of them every accessor returns
what it returned before. -/
theorem accessors_pure {EventType : Type} (EVENT_CLICK : EventType) (e : ClickEvent) :
    (e.getX.2 = e ∧ e.getY.2 = e ∧ e.getForce.2 = e ∧ e.getType.2 = e ∧
      (e.getEventType EVENT_CLICK).2 = e) ∧
    (e.getX.2.observe EVENT_CLICK = e.observe EVENT_CLICK ∧
      e.getY.2.observe EVENT_CLICK = e.observe EVENT_CLICK ∧
      e.getForce.2.observe EVENT_CLICK = e.observe EVENT_CLICK ∧
      e.getType.2.observe EVENT_CLICK = e.observe EVENT_CLICK ∧
      (e.getEventType EVENT_CLICK).2.observe EVENT_CLICK = e.observe EVENT_CLICK) :=
  ⟨⟨rfl, rfl, rfl, rfl, rfl⟩, ⟨rfl, rfl, rfl, rfl, rfl⟩⟩

/-! ## Phases -/

/-- C11: for all phases `p` and `q`, `setType(q)` on an event whose phase is `p`
yields an event whose phase is `q`, whatever `p` is: no transition between phases
is refused, those out of RELEASED and CANCEL included. -/
theorem setType_any_transition (e : ClickEvent) (p q : ClickEvent.ClickEventType) :
    e.getType.1 = p → ∃ e' : ClickEvent, e.setType q = e' ∧ e'.getType.1 = q :=
  fun _ => ⟨e.setType q, rfl, rfl⟩

/-- The transitions RELEASED to PRESSED and CANCEL to RELEASED on events constructed
at (10, 20) with force 0. -/
theorem setType_any_transition_witness :
    ((ClickEvent.construct .RELEASED ⟨10, by decide⟩ ⟨20, by decide⟩).getType.1
        = ClickEvent.ClickEventType.RELEASED ∧
      ∃ e' : ClickEvent,
        (ClickEvent.construct .RELEASED ⟨10, by decide⟩ ⟨20, by decide⟩).setType .PRESSED = e' ∧
        e'.getType.1 = ClickEvent.ClickEventType.PRESSED) ∧
    ((ClickEvent.construct .CANCEL ⟨10, by decide⟩ ⟨20, by decide⟩).getType.1
        = ClickEvent.ClickEventType.CANCEL ∧
      ∃ e' : ClickEvent,
        (ClickEvent.construct .CANCEL ⟨10, by decide⟩ ⟨20, by decide⟩).setType .RELEASED = e' ∧
        e'.getType.1 = ClickEvent.ClickEventType.RELEASED) :=
  ⟨⟨rfl, setType_any_transition
      (ClickEvent.construct .RELEASED ⟨10, by decide⟩ ⟨20, by decide⟩) .RELEASED .PRESSED rfl⟩,
    ⟨rfl, setType_any_transition
      (ClickEvent.construct .CANCEL ⟨10, by decide⟩ ⟨20, by decide⟩) .CANCEL .RELEASED rfl⟩⟩

/-- C12: for every event constructed with a phase `p` and then subjected to any
finite sequence of `setX`, `setY` and `setType` calls, `getType()` returns one of
PRESSED, RELEASED, CANCEL, namely `p` or the argument of one of the `setType` calls;
and PRESSED, RELEASED, CANCEL are pairwise distinct, with the distinct integer
values 0, 1, 2. -/
theorem phase_invariant (p : ClickEvent.ClickEventType) (x y f : int16_t) (cs : List Call) :
    ((applyCalls cs (ClickEvent.construct p x y f)).getType.1 = .PRESSED ∨
      (applyCalls cs (ClickEvent.construct p x y f)).getType.1 = .RELEASED ∨
      (applyCalls cs (ClickEvent.construct p x y f)).getType.1 = .CANCEL) ∧
    (applyCalls cs (ClickEvent.construct p x y f)).getType.1 ∈ p :: setTypeArguments cs ∧
    (ClickEvent.ClickEventType.PRESSED ≠ ClickEvent.ClickEventType.RELEASED ∧
      ClickEvent.ClickEventType.PRESSED ≠ ClickEvent.ClickEventType.CANCEL ∧
      ClickEvent.ClickEventType.RELEASED ≠ ClickEvent.ClickEventType.CANCEL) ∧
    (ClickEvent.ClickEventType.PRESSED.value = 0 ∧
      ClickEvent.ClickEventType.RELEASED.value = 1 ∧
      ClickEvent.ClickEventType.CANCEL.value = 2) := by
  refine ⟨?_, ?_, by decide, ⟨rfl, rfl, rfl⟩⟩
  · cases (applyCalls cs (ClickEvent.construct p x y f)).getType.1 <;> simp
  · exact applyCalls_type_mem cs (ClickEvent.construct p x y f)

/-! ## Algebra of the mutators -/

/-- C13: for every event `e` with force `f` and every phase `p` and values `x`, `y`,
the event obtained from `e` by the calls `setType(p)`, `setX(x)`, `setY(y)`, made in
any of their six orders, is equal to the freshly constructed `ClickEvent(p, x, y, f)`
and gives the same result through every accessor, whatever the phase and
coordinates of `e` were. -/
theorem reuse_eq_construct {EventType : Type} (EVENT_CLICK : EventType) (e : ClickEvent)
    (f : int16_t) (p : ClickEvent.ClickEventType) (x y : int16_t) (hf : e.getForce.1 = f) :
    (((e.setType p).setX x).setY y = ClickEvent.construct p x y f ∧
      ((e.setType p).setY y).setX x = ClickEvent.construct p x y f ∧
      ((e.setX x).setType p).setY y = ClickEvent.construct p x y f ∧
      ((e.setX x).setY y).setType p = ClickEvent.construct p x y f ∧
      ((e.setY y).setType p).setX x = ClickEvent.construct p x y f ∧
      ((e.setY y).setX x).setType p = ClickEvent.construct p x y f) ∧
    ((((e.setType p).setX x).setY y).observe EVENT_CLICK
        = (ClickEvent.construct p x y f).observe EVENT_CLICK ∧
      (((e.setType p).setY y).setX x).observe EVENT_CLICK
        = (ClickEvent.construct p x y f).observe EVENT_CLICK ∧
      (((e.setX x).setType p).setY y).observe EVENT_CLICK
        = (ClickEvent.construct p x y f).observe EVENT_CLICK ∧
      (((e.setX x).setY y).setType p).observe EVENT_CLICK
        = (ClickEvent.construct p x y f).observe EVENT_CLICK ∧
      (((e.setY y).setType p).setX x).observe EVENT_CLICK
        = (ClickEvent.construct p x y f).observe EVENT_CLICK ∧
      (((e.setY y).setX x).setType p).observe EVENT_CLICK
        = (ClickEvent.construct p x y f).observe EVENT_CLICK) := by
  subst hf
  exact ⟨⟨rfl, rfl, rfl, rfl, rfl, rfl⟩, ⟨rfl, rfl, rfl, rfl, rfl, rfl⟩⟩

/-- The event `ClickEvent(RELEASED, 1, 2, 7)` rewritten by `setType(PRESSED)`,
`setX(-5)`, `setY(9)` in each order, against `ClickEvent(PRESSED, -5, 9, 7)`, with 0
standing for the click kind. -/
theorem reuse_eq_construct_witness :
    (ClickEvent.construct .RELEASED ⟨1, by decide⟩ ⟨2, by decide⟩ ⟨7, by decide⟩).getForce.1
      = (⟨7, by decide⟩ : int16_t) ∧
    (ClickEvent.construct .RELEASED ⟨1, by decide⟩ ⟨2, by decide⟩ ⟨7, by decide⟩).getType.1
      ≠ ClickEvent.ClickEventType.PRESSED ∧
    ((((ClickEvent.construct .RELEASED ⟨1, by decide⟩ ⟨2, by decide⟩ ⟨7, by decide⟩).setType
          .PRESSED).setX ⟨-5, by decide⟩).setY ⟨9, by decide⟩
        = ClickEvent.construct .PRESSED ⟨-5, by decide⟩ ⟨9, by decide⟩ ⟨7, by decide⟩ ∧
      (((ClickEvent.construct .RELEASED ⟨1, by decide⟩ ⟨2, by decide⟩ ⟨7, by decide⟩).setY
          ⟨9, by decide⟩).setX ⟨-5, by decide⟩).setType .PRESSED
        = ClickEvent.construct .PRESSED ⟨-5, by decide⟩ ⟨9, by decide⟩ ⟨7, by decide⟩) ∧
    ((((ClickEvent.construct .RELEASED ⟨1, by decide⟩ ⟨2, by decide⟩ ⟨7, by decide⟩).setType
          .PRESSED).setX ⟨-5, by decide⟩).setY ⟨9, by decide⟩).observe (0 : Nat)
      = (.PRESSED, ⟨-5, by decide⟩, ⟨9, by decide⟩, ⟨7, by decide⟩, 0) :=
  ⟨rfl, by decide,
    ⟨(reuse_eq_construct (0 : Nat)
        (ClickEvent.construct .RELEASED ⟨1, by decide⟩ ⟨2, by decide⟩ ⟨7, by decide⟩)
        ⟨7, by decide⟩ .PRESSED ⟨-5, by decide⟩ ⟨9, by decide⟩ rfl).1.1,
      (reuse_eq_construct (0 : Nat)
        (ClickEvent.construct .RELEASED ⟨1, by decide⟩ ⟨2, by decide⟩ ⟨7, by decide⟩)
        ⟨7, by decide⟩ .PRESSED ⟨-5, by decide⟩ ⟨9, by decide⟩ rfl).1.2.2.2.2.2⟩,
    by decide⟩

/-- C14: for every event `e`, values `a`, `b` and phase `p`, `setX(a)` then `setY(b)`
gives the same event as `setY(b)` then `setX(a)`, `setX(a)` then `setType(p)` the
same event as `setType(p)` then `setX(a)`, and `setY(b)` then `setType(p)` the same
event as `setType(p)` then `setY(b)`. -/
theorem setters_commute (e : ClickEvent) (a b : int16_t) (p : ClickEvent.ClickEventType) :
    (e.setX a).setY b = (e.setY b).setX a ∧
    (e.setX a).setType p = (e.setType p).setX a ∧
    (e.setY b).setType p = (e.setType p).setY b :=
  ⟨rfl, rfl, rfl⟩

/-- C15: for every event `e`, values `a`, `b` and phases `p`, `q`: `setX(a)` then
`setX(b)` gives the same event as `setX(b)` alone, `setX(a)` twice the same event as
`setX(a)` once, and `setX(getX())` gives `e` itself; likewise for `setY` with `getY`
and for `setType` with `getType`. -/
theorem last_write_wins (e : ClickEvent) (a b : int16_t) (p q : ClickEvent.ClickEventType) :
    ((e.setX a).setX b = e.setX b ∧ (e.setX a).setX a = e.setX a ∧ e.setX e.getX.1 = e) ∧
    ((e.setY a).setY b = e.setY b ∧ (e.setY a).setY a = e.setY a ∧ e.setY e.getY.1 = e) ∧
    ((e.setType p).setType q = e.setType q ∧ (e.setType p).setType p = e.setType p ∧
      e.setType e.getType.1 = e) :=
  ⟨⟨rfl, rfl, rfl⟩, ⟨rfl, rfl, rfl⟩, ⟨rfl, rfl, rfl⟩⟩

end touchgfx
